import Mathlib

/-!
Verification development for the git-checkpoint interactive TUI.

The controller (`handleKeyMsg` and its sub-handlers) is a shallow embedding of
`main.go`; the repository gateway (`CreateCheckpoint`, `LoadCheckpoints`,
`RollbackToCheckpoint`, `SyncWithRemote`) is a shallow embedding of
`internal/timekeeper/service.go`, with the external go-git engine modelled as
an explicit environment of operation outcomes (`GitEnv`, `CkptEnv`) plus an
abstract repository state (`Repo`).  Go strings that are manipulated at byte
level by the source (the description draft, sliced with `s[:len(s)-1]`) are
modelled as UTF-8 byte lists; strings that are only compared or concatenated
are modelled as Lean strings.
-/

/-! ## Text constants from internal/models/models.go -/

def MenuInitGit : String := "Начать Vibe-сессию"

def MenuCreateCheckpoint : String := "Засейвить вайб (Save Vibe)"

def MenuViewHistory : String := "История потока (Flow History)"

def MenuRollback : String := "Вернуть прошлый вайб"

def MenuSync : String := "Синкнуть с облаком"

def ErrNoRemote : String := "Удаленное хранилище не найдено. Это только локальная версия."

def ErrAlreadyUpToDate : String := "Всё актуально"

def ErrConflictsDetected : String := "Конфликты решены автоматически"

def ErrForcePushSuccess : String := "Копия отправлена принудительно"

def ErrPushSuccess : String := "Копия отправлена успешно"

def ErrPullSuccess : String := "Копия получена успешно"

def CheckpointAuthorName : String := "Машина Времени"

def CheckpointAuthorEmail : String := "timemachine@local"

def ConflictAuthorName : String := "Time Machine TUI"

def ConflictAuthorEmail : String := "timemachine@local"

def DefaultSuggestions : List String :=
  ["Поймал волну 🌊",
   "Фикс на лету 🐛",
   "Новая фича готова ✨",
   "Рефакторинг для души 🧹",
   "Эксперименты с кодом 🧪",
   "Просто сейв на всякий случай 🛡️",
   "Красиво сделал 🎨",
   "Оптимизация 🚀",
   "Тесты прошли ✅",
   "Вайб чек 🤙",
   "Прогресс неостановим 🔥",
   "Магия кода 🪄",
   "Дзен-код 🧘",
   "Ещё один шаг к релизу 🎯"]

/-- The package-level `models.GetMenuItems` (always the four action entries);
this is the list whose length bounds the down-key in `handleKeyMsg`. -/
def GetMenuItems : List String :=
  [MenuCreateCheckpoint, MenuViewHistory, MenuRollback, MenuSync]

/-! ## UTF-8 byte model for Go strings

Go strings are byte sequences; `DescriptionInput` is sliced bytewise by the
source (`a.model.DescriptionInput[:len(...)-1]`), so the draft is modelled as
a list of byte values. -/

/-- Standard UTF-8 encoding of one Unicode code point, as byte values. -/
def utf8EncodeChar (c : Char) : List Nat :=
  let n := c.toNat
  if n < 128 then [n]
  else if n < 2048 then [192 + n / 64, 128 + n % 64]
  else if n < 65536 then [224 + n / 4096, 128 + (n / 64) % 64, 128 + n % 64]
  else [240 + n / 262144, 128 + (n / 4096) % 64, 128 + (n / 64) % 64, 128 + n % 64]

/-- UTF-8 bytes of a list of code points (the bytes of a Go `string(runes)`). -/
def utf8EncodeList (rs : List Char) : List Nat :=
  (rs.map utf8EncodeChar).flatten

/-- UTF-8 bytes of a Lean string (the bytes of the corresponding Go string). -/
def utf8Encode (s : String) : List Nat :=
  utf8EncodeList s.data

/-! ## Data model (internal/models/models.go) -/

/-- `models.GitStatus`. -/
structure GitStatus where
  Branch : String
  Staged : List String
  Modified : List String
  Untracked : List String
  Ahead : Int
  Behind : Int
  IsClean : Bool
  LastCommit : String
deriving DecidableEq

/-- `models.Checkpoint`: one entry of the loaded history. Dates are modelled
as abstract timestamps (`Nat`). -/
structure Checkpoint where
  Hash : String
  Message : String
  Author : String
  Date : Nat
  IsCurrent : Bool
deriving DecidableEq

/-- `models.Model`: the single application state.  `DescriptionInput` is a Go
string, i.e. a byte sequence (UTF-8 bytes of what was typed). -/
structure Model where
  Status : Option GitStatus
  Err : Option String
  Selected : Int
  Quitting : Bool
  Checkpoints : List Checkpoint
  HistoryMode : Bool
  HistorySelected : Int
  Loading : Bool
  LoadingText : String
  SyncMessage : String
  ShowSyncMessage : Bool
  GitNotInitialized : Bool
  DescriptionMode : Bool
  DescriptionInput : List Nat
  Suggestions : List String
deriving DecidableEq

/-- The method `(m *Model) GetMenuItems`: a single "initialize" entry when the
repository is uninitialized, else the four action entries. -/
def Model.GetMenuItems (m : Model) : List String :=
  if m.GitNotInitialized then [MenuInitGit]
  else [MenuCreateCheckpoint, MenuViewHistory, MenuRollback, MenuSync]

/-! ## Key events (bubbletea `tea.KeyMsg`) -/

/-- A key event.  Named keys are distinguished by their bubbletea `Type`;
plain character input arrives as `runes`.  `other` stands for any further
named key. -/
inductive Key where
  | escape
  | enter
  | backspace
  | ctrlC
  | up
  | down
  | runes (rs : List Char)
  | other (s : String)
deriving DecidableEq

/-- `msg.String()` of a key event, following bubbletea's conventions. -/
def keyString : Key → String
  | Key.escape => "esc"
  | Key.enter => "enter"
  | Key.backspace => "backspace"
  | Key.ctrlC => "ctrl+c"
  | Key.up => "up"
  | Key.down => "down"
  | Key.runes rs => String.mk rs
  | Key.other s => s

/-- `msg.Runes` of a key event: set only for character input. -/
def keyRunes : Key → List Char
  | Key.runes rs => rs
  | _ => []

/-- A scheduled asynchronous operation (`tea.Cmd`), described by which gateway
call it performs.  `quit` is `tea.Quit`. -/
inductive Cmd where
  | quit
  | loadStatus
  | initGit
  | descriptionModeMsg (suggestions : List String)
  | loadCheckpoints
  | syncWithRemote
  | createCheckpoint (description : List Nat)
  | rollback (hash : String)
deriving DecidableEq

/-! ## Controller (main.go) -/

/-- Lines 150-154 of main.go: any key press clears a displayed sync notice. -/
def clearSyncMessage (m : Model) : Model :=
  if m.ShowSyncMessage then { m with ShowSyncMessage := false, SyncMessage := "" } else m

/-- `App.handleMenuSelection` (main.go 334-375): dispatch on the selected item
of the state-dependent menu; out-of-range selection does nothing. -/
def handleMenuSelection (m : Model) : Model × Option Cmd :=
  let menuItems := m.GetMenuItems
  if (menuItems.length : Int) ≤ m.Selected then (m, none)
  else
    match menuItems.get? m.Selected.toNat with
    | none => (m, none)
    | some selectedItem =>
      if selectedItem = MenuInitGit then
        ({ m with Loading := true, LoadingText := "Настраиваю пространство..." }, some Cmd.initGit)
      else if selectedItem = MenuCreateCheckpoint then
        ({ m with Loading := true, LoadingText := "Ловлю вдохновение..." },
         some (Cmd.descriptionModeMsg DefaultSuggestions))
      else if selectedItem = MenuViewHistory then
        ({ m with Loading := true, LoadingText := "Вспоминаем былое..." }, some Cmd.loadCheckpoints)
      else if selectedItem = MenuRollback then
        ({ m with Loading := true, LoadingText := "Вспоминаем былое..." }, some Cmd.loadCheckpoints)
      else if selectedItem = MenuSync then
        ({ m with Loading := true, LoadingText := "Синхронизирую потоки..." }, some Cmd.syncWithRemote)
      else (m, none)

/-- The `switch msg.Type` / `switch msg.String()` tail of
`App.handleDescriptionInput` (main.go 234-276), reached when the digit
quick-select at the top of the handler did not fire. -/
def descTypeSwitch (m : Model) (k : Key) : Model × Option Cmd :=
  match k with
  | Key.escape => ({ m with DescriptionMode := false, DescriptionInput := [] }, none)
  | Key.enter =>
    let description :=
      if m.DescriptionInput = [] then utf8Encode "Сейв без описания" else m.DescriptionInput
    ({ m with DescriptionMode := false, Loading := true, LoadingText := "Сейвлю вайб..." },
     some (Cmd.createCheckpoint description))
  | Key.backspace =>
    (if 0 < m.DescriptionInput.length
     then { m with DescriptionInput := m.DescriptionInput.dropLast }
     else m, none)
  | Key.runes rs =>
    match rs with
    | [] => (m, none)
    | r :: _ =>
      if r < '1' ∨ '9' < r then
        ({ m with DescriptionInput := m.DescriptionInput ++ utf8EncodeList rs }, none)
      else (m, none)
  | k1 =>
    if keyString k1 = "ctrl+c" then ({ m with Quitting := true }, some Cmd.quit)
    else (m, none)

/-- `App.handleDescriptionInput` (main.go 221-277): digit keys 1-9 select a
suggestion by position when in range, otherwise input falls through to the
type/string switches. -/
def handleDescriptionInput (m : Model) (k : Key) : Model × Option Cmd :=
  match keyRunes k with
  | [r] =>
    if '1' ≤ r ∧ r ≤ '9' then
      match m.Suggestions.get? (r.toNat - '1'.toNat) with
      | some sug => ({ m with DescriptionInput := utf8Encode sug }, none)
      | none => descTypeSwitch m k
    else descTypeSwitch m k
  | _ => descTypeSwitch m k

/-- `App.handleHistoryInput` (main.go 280-331). -/
def handleHistoryInput (m : Model) (k : Key) : Model × Option Cmd :=
  match k with
  | Key.escape => ({ m with HistoryMode := false }, none)
  | Key.backspace => ({ m with HistoryMode := false }, none)
  | k1 =>
    let s := keyString k1
    if s = "ctrl+c" then ({ m with Quitting := true }, some Cmd.quit)
    else if s = "q" then ({ m with Quitting := true }, some Cmd.quit)
    else if s = "esc" ∨ s = "escape" then ({ m with HistoryMode := false }, none)
    else if s = "up" ∨ s = "k" then
      (if 0 < m.HistorySelected then { m with HistorySelected := m.HistorySelected - 1 } else m,
       none)
    else if s = "down" ∨ s = "j" then
      (if m.HistorySelected < (m.Checkpoints.length : Int) - 1
       then { m with HistorySelected := m.HistorySelected + 1 }
       else m, none)
    else if s = "enter" ∨ s = " " then
      if m.HistorySelected < (m.Checkpoints.length : Int) then
        match m.Checkpoints.get? m.HistorySelected.toNat with
        | some checkpoint =>
          ({ m with Loading := true, LoadingText := "Возвращаю старый вайб..." },
           some (Cmd.rollback checkpoint.Hash))
        | none => (m, none)
      else (m, none)
    else (m, none)

/-- The main-menu tail of `App.handleKeyMsg` (main.go 164-217): quit keys,
selection moves — the down-key bound is the length of the package-level
`GetMenuItems` (always 4) — confirmation, and the four hotkeys that set the
selection before dispatching it. -/
def mainModeKeys (m1 : Model) (k : Key) : Model × Option Cmd :=
  match k with
  | Key.escape => ({ m1 with Quitting := true }, some Cmd.quit)
  | k1 =>
    let s := keyString k1
    if s = "ctrl+c" ∨ s = "q" then ({ m1 with Quitting := true }, some Cmd.quit)
    else if s = "esc" ∨ s = "escape" then ({ m1 with Quitting := true }, some Cmd.quit)
    else if s = "up" ∨ s = "k" then
      (if 0 < m1.Selected then { m1 with Selected := m1.Selected - 1 } else m1, none)
    else if s = "down" ∨ s = "j" then
      (if m1.Selected < (GetMenuItems.length : Int) - 1
       then { m1 with Selected := m1.Selected + 1 }
       else m1, none)
    else if s = "enter" ∨ s = " " then handleMenuSelection m1
    else if s = "c" then handleMenuSelection { m1 with Selected := 0 }
    else if s = "h" then handleMenuSelection { m1 with Selected := 1 }
    else if s = "r" then handleMenuSelection { m1 with Selected := 2 }
    else if s = "s" then handleMenuSelection { m1 with Selected := 3 }
    else (m1, none)

/-- The mode dispatch of `App.handleKeyMsg`, after the loading check and the
sync-notice clearing. -/
def handleKeyMsgBody (m1 : Model) (k : Key) : Model × Option Cmd :=
  if m1.DescriptionMode then handleDescriptionInput m1 k
  else if m1.HistoryMode then handleHistoryInput m1 k
  else mainModeKeys m1 k

/-- `App.handleKeyMsg` (main.go 145-148 and 150-154): while loading every key
is absorbed; otherwise a pending sync notice is cleared and the key goes to
the mode dispatch. -/
def handleKeyMsg (m : Model) (k : Key) : Model × Option Cmd :=
  if m.Loading then (m, none)
  else handleKeyMsgBody (clearSyncMessage m) k

/-- Feed a sequence of key events through the controller, keeping the state. -/
def runKeys (m : Model) (ks : List Key) : Model :=
  ks.foldl (fun s k => (handleKeyMsg s k).1) m

/-! ## Repository gateway (internal/timekeeper/service.go)

The external go-git engine is modelled by an environment recording the outcome
of each engine call, plus an abstract repository state: `Repo.commits` is the
commit log as seen from HEAD (head first, in the order `repo.Log` yields it),
and `Repo.dirty` is the working-tree clean/dirty flag. -/

/-- Distinguished failure causes wrapped in `models.ErrMsg` by the service. -/
inductive ErrTag where
  | getwdFailed
  | failedToOpenRepo
  | failedToGetWorktree
  | failedToGetStatus
  | failedToAddChanges
  | failedToCommit
  | failedToPush
  | failedToAddFiles
  | failedToCreateCheckpoint
  | headNotFound
deriving DecidableEq

/-- Outcome of `worktree.Pull`: success, `git.NoErrAlreadyUpToDate`, or any
other error (conflicts included). -/
inductive PullResult where
  | ok
  | alreadyUpToDate
  | err
deriving DecidableEq

/-- Outcome of `remote.Push`: success, `git.NoErrAlreadyUpToDate`, or any
other rejection. -/
inductive PushResult where
  | ok
  | alreadyUpToDate
  | err
deriving DecidableEq

/-- The slice of `worktree.Status()` consulted by the sync protocol. -/
structure WorktreeStatus where
  IsClean : Bool
deriving DecidableEq

/-- Outcomes of the engine calls made by `Service.SyncWithRemote`, fixed ahead
of the run: this is the oracle for one sync attempt. -/
structure GitEnv where
  getwdOk : Bool
  openOk : Bool
  worktreeOk : Bool
  hasRemote : Bool
  pullResult : PullResult
  statusResult : Option WorktreeStatus
  addOk : Bool
  commitOk : Bool
  pushResult : PushResult
  forcePushOk : Bool
deriving DecidableEq

/-- `models.SyncMsg`. -/
structure SyncMsg where
  Success : Bool
  Message : String
  Pulled : Bool
  Pushed : Bool
  Conflict : Bool
deriving DecidableEq

/-- One commit created through the worktree during a sync attempt. -/
structure CommitCall where
  Message : String
  AuthorName : String
  AuthorEmail : String
deriving DecidableEq

/-- One network operation attempted against the remote. -/
inductive NetOp where
  | pull
  | push (force : Bool)
deriving DecidableEq

/-- Observable side effects of one sync attempt: commits created and network
operations attempted, in order. -/
structure SyncTrace where
  commits : List CommitCall
  netOps : List NetOp
deriving DecidableEq

/-- The pull stage of `Service.SyncWithRemote` (service.go 277-326): attempt
the pull; on `NoErrAlreadyUpToDate` record an up-to-date notice; on any other
pull error recompute the status and, if the tree is dirty, stage everything
and create the auto-resolution commit, escalating only staging/commit
failures; on success record a pull-succeeded notice. -/
def pullStage (env : GitEnv) (ts : String) : Except ErrTag SyncMsg × SyncTrace :=
  match env.pullResult with
  | PullResult.alreadyUpToDate =>
    (Except.ok { Success := true, Message := ErrAlreadyUpToDate, Pulled := false,
                 Pushed := false, Conflict := false },
     { commits := [], netOps := [NetOp.pull] })
  | PullResult.ok =>
    (Except.ok { Success := true, Message := ErrPullSuccess, Pulled := true,
                 Pushed := false, Conflict := false },
     { commits := [], netOps := [NetOp.pull] })
  | PullResult.err =>
    match env.statusResult with
    | none => (Except.error ErrTag.failedToGetStatus, { commits := [], netOps := [NetOp.pull] })
    | some st =>
      if st.IsClean then
        (Except.ok { Success := true, Message := ErrConflictsDetected, Pulled := false,
                     Pushed := false, Conflict := true },
         { commits := [], netOps := [NetOp.pull] })
      else if env.addOk = false then
        (Except.error ErrTag.failedToAddChanges, { commits := [], netOps := [NetOp.pull] })
      else if env.commitOk = false then
        (Except.error ErrTag.failedToCommit, { commits := [], netOps := [NetOp.pull] })
      else
        (Except.ok { Success := true, Message := ErrConflictsDetected, Pulled := false,
                     Pushed := false, Conflict := true },
         { commits := [{ Message := "Auto-resolve conflicts: " ++ ts,
                         AuthorName := ConflictAuthorName,
                         AuthorEmail := ConflictAuthorEmail }],
           netOps := [NetOp.pull] })

/-- The push stage of `Service.SyncWithRemote` (service.go 329-368): attempt a
plain push; on `NoErrAlreadyUpToDate` merge the up-to-date notices; on any
other rejection retry exactly once with a forced push, whose failure is the
fatal `ErrFailedToPush`. -/
def pushStage (env : GitEnv) (m : SyncMsg) : Except ErrTag SyncMsg × List NetOp :=
  match env.pushResult with
  | PushResult.alreadyUpToDate =>
    if m.Message = ErrAlreadyUpToDate then
      (Except.ok { m with Message := ErrAlreadyUpToDate, Pushed := false }, [NetOp.push false])
    else
      (Except.ok { m with Message := m.Message ++ ", already up to date on push", Pushed := false },
       [NetOp.push false])
  | PushResult.ok =>
    if m.Message = ErrAlreadyUpToDate then
      (Except.ok { m with Pushed := true, Message := ErrPushSuccess }, [NetOp.push false])
    else
      (Except.ok { m with Pushed := true, Message := m.Message ++ ", pushed successfully" },
       [NetOp.push false])
  | PushResult.err =>
    if env.forcePushOk = false then
      (Except.error ErrTag.failedToPush, [NetOp.push false, NetOp.push true])
    else if m.Message = ErrAlreadyUpToDate then
      (Except.ok { m with Pushed := true, Message := ErrForcePushSuccess },
       [NetOp.push false, NetOp.push true])
    else
      (Except.ok { m with Pushed := true, Message := m.Message ++ ", force pushed successfully" },
       [NetOp.push false, NetOp.push true])

/-- `Service.SyncWithRemote` (service.go 244-371): environment failures first;
without a remote named origin return the local-only outcome (its `Success`
field is `false` in the source) and touch the network not at all; otherwise
run the pull stage then the push stage.  `ts` is the formatted resolution
timestamp `time.Now().Format("2006-01-02 15:04:05")`. -/
def SyncWithRemote (env : GitEnv) (ts : String) : Except ErrTag SyncMsg × SyncTrace :=
  if env.getwdOk = false then (Except.error ErrTag.getwdFailed, { commits := [], netOps := [] })
  else if env.openOk = false then
    (Except.error ErrTag.failedToOpenRepo, { commits := [], netOps := [] })
  else if env.worktreeOk = false then
    (Except.error ErrTag.failedToGetWorktree, { commits := [], netOps := [] })
  else if env.hasRemote = false then
    (Except.ok { Success := false, Message := ErrNoRemote, Pulled := false, Pushed := false,
                 Conflict := false },
     { commits := [], netOps := [] })
  else
    match pullStage env ts with
    | (Except.error e, tr) => (Except.error e, tr)
    | (Except.ok m, tr) =>
      match pushStage env m with
      | (Except.error e, ops) =>
        (Except.error e, { commits := tr.commits, netOps := tr.netOps ++ ops })
      | (Except.ok m2, ops) =>
        (Except.ok m2, { commits := tr.commits, netOps := tr.netOps ++ ops })

/-- One commit of the abstract repository. -/
structure Commit where
  Hash : String
  Message : String
  Author : String
  Date : Nat
deriving DecidableEq

/-- Abstract repository state: the commit log as seen from HEAD (head first)
and the working-tree dirty flag. -/
structure Repo where
  commits : List Commit
  dirty : Bool
deriving DecidableEq

/-- `models.CheckpointCreatedMsg`. -/
structure CheckpointCreatedMsg where
  Success : Bool
  Message : String
deriving DecidableEq

/-- `models.RollbackMsg`. -/
structure RollbackMsg where
  Success : Bool
  Message : String
deriving DecidableEq

/-- Engine-call outcomes for one `Service.CreateCheckpoint` run: whether
`worktree.Add(".")` and `worktree.Commit` succeed, and the hash and timestamp
the engine assigns to the new commit. -/
structure CkptEnv where
  addOk : Bool
  commitOk : Bool
  newHash : String
  now : Nat
deriving DecidableEq

/-- `Service.CreateCheckpoint` (service.go 104-145): stage everything, then
commit with the given description under the fixed checkpoint author; the new
commit becomes HEAD and the tree is clean afterwards.  Failures leave the
repository unchanged. -/
def CreateCheckpoint (r : Repo) (env : CkptEnv) (description : String) :
    Except ErrTag CheckpointCreatedMsg × Repo :=
  if env.addOk = false then (Except.error ErrTag.failedToAddFiles, r)
  else if env.commitOk = false then (Except.error ErrTag.failedToCreateCheckpoint, r)
  else
    (Except.ok { Success := true,
                 Message := "Момент зафиксирован: " ++ String.mk (env.newHash.data.take 7) },
     { commits := { Hash := env.newHash, Message := description,
                    Author := CheckpointAuthorName, Date := env.now } :: r.commits,
       dirty := false })

/-- `Service.LoadCheckpoints` (service.go 148-200): `repo.Head()` fails when
there are no commits; otherwise every commit reachable from HEAD is listed,
flagged `IsCurrent` iff its hash equals the HEAD hash. -/
def LoadCheckpoints (r : Repo) : Except ErrTag (List Checkpoint) :=
  match r.commits with
  | [] => Except.error ErrTag.headNotFound
  | c :: rest =>
    Except.ok ((c :: rest).map (fun cm =>
      { Hash := cm.Hash, Message := cm.Message, Author := cm.Author, Date := cm.Date,
        IsCurrent := cm.Hash == c.Hash }))

/-- `Service.RollbackToCheckpoint` (service.go 203-241): `worktree.Reset`
(hard) to the given hash; when the hash names no commit in the history the
reset fails with object-not-found and the repository is untouched; on success
HEAD and the log are reset to that commit and the tree is clean. -/
def RollbackToCheckpoint (r : Repo) (hash : String) : RollbackMsg × Repo :=
  match r.commits.dropWhile (fun c => !(c.Hash == hash)) with
  | [] => ({ Success := false, Message := "Не удалось перемотать: object not found" }, r)
  | c :: rest =>
    ({ Success := true, Message := "Успешно перемотали к моменту: " ++ String.mk (hash.data.take 7) },
     { commits := c :: rest, dirty := false })

/-! ## Decidable equality for operation results -/

instance {e a : Type} [DecidableEq e] [DecidableEq a] : DecidableEq (Except e a)
  | Except.ok x, Except.ok y => decidable_of_iff (x = y) (by simp)
  | Except.ok _, Except.error _ => isFalse (by simp)
  | Except.error _, Except.ok _ => isFalse (by simp)
  | Except.error x, Except.error y => decidable_of_iff (x = y) (by simp)

/-- The `Success` flag of a sync result when it is an outcome value. -/
def outcomeSuccess : Except ErrTag SyncMsg → Option Bool
  | Except.ok m => some m.Success
  | Except.error _ => none

/-! ## Concrete states and environments used as test inputs -/

/-- A freshly started application state over an initialized repository. -/
def mBase : Model :=
  { Status := none
    Err := none
    Selected := 0
    Quitting := false
    Checkpoints := []
    HistoryMode := false
    HistorySelected := 0
    Loading := false
    LoadingText := ""
    SyncMessage := ""
    ShowSyncMessage := false
    GitNotInitialized := false
    DescriptionMode := false
    DescriptionInput := []
    Suggestions := [] }

/-- A state in the middle of an asynchronous operation. -/
def mLoading : Model := { mBase with Loading := true, LoadingText := "Синхронизирую потоки..." }

/-- A state over an uninitialized repository (menu shrunk to one entry). -/
def mUninit : Model := { mBase with GitNotInitialized := true }

/-- Description-entry state whose draft holds the two UTF-8 bytes of `"ф"`. -/
def mDraft : Model := { mBase with DescriptionMode := true, DescriptionInput := [209, 132] }

/-- Description-entry state with two suggestions loaded. -/
def mSug : Model := { mBase with DescriptionMode := true, Suggestions := ["alpha", "beta"] }

/-- Sync environment with everything available except a remote named origin. -/
def envNoRemote : GitEnv :=
  { getwdOk := true
    openOk := true
    worktreeOk := true
    hasRemote := false
    pullResult := PullResult.ok
    statusResult := none
    addOk := true
    commitOk := true
    pushResult := PushResult.ok
    forcePushOk := true }

/-- Sync environment where the pull fails on a dirty tree and staging fails. -/
def envAddFail : GitEnv :=
  { envNoRemote with
    hasRemote := true
    pullResult := PullResult.err
    statusResult := some (WorktreeStatus.mk false)
    addOk := false }

/-- Sync environment with a pull conflict on a dirty tree, a rejected plain
push and a successful forced push. -/
def envConflict : GitEnv :=
  { envAddFail with addOk := true, pushResult := PushResult.err }

/-- A one-commit repository with a dirty working tree. -/
def rW : Repo := { commits := [{ Hash := "aaa", Message := "m1", Author := "x", Date := 1 }], dirty := true }

/-- Checkpoint-creation environment where both engine calls succeed. -/
def envCk : CkptEnv := { addOk := true, commitOk := true, newHash := "bbb", now := 2 }

/-! ## C1: sync with no remote -/

/-- C1 (amended): when no remote named origin is configured and the
environment steps succeed, sync attempts no network operation, creates no
commit, and returns an outcome value (not an error) with `Pulled = false`,
`Pushed = false` and the local-only notice — but with its `Success` flag set
to `false`, not `true` as the claim states. -/
theorem sync_no_remote_local_only (env : GitEnv) (ts : String)
    (h1 : env.getwdOk = true) (h2 : env.openOk = true) (h3 : env.worktreeOk = true)
    (h4 : env.hasRemote = false) :
    SyncWithRemote env ts =
      (Except.ok { Success := false, Message := ErrNoRemote, Pulled := false, Pushed := false,
                   Conflict := false },
       { commits := [], netOps := [] }) := by
  simp [SyncWithRemote, h1, h2, h3, h4]

/-- C1 counterexample: at the concrete no-remote environment the sync outcome
is an outcome value whose overall `Success` flag is `false`, although no
forced-push failure occurred (no network operation was even attempted); the
claim asserts the flag is `true`. -/
theorem sync_no_remote_success_flag_false :
    outcomeSuccess (SyncWithRemote envNoRemote "2024-01-01 00:00:00").1 = some false ∧
    (SyncWithRemote envNoRemote "2024-01-01 00:00:00").2.netOps = [] := ⟨rfl, rfl⟩

/-- C1 witness: the amended theorem applied to the concrete no-remote
environment. -/
theorem sync_no_remote_local_only_witness :
    SyncWithRemote envNoRemote "2024-01-01 00:00:00" =
      (Except.ok { Success := false, Message := ErrNoRemote, Pulled := false, Pushed := false,
                   Conflict := false },
       { commits := [], netOps := [] }) :=
  sync_no_remote_local_only envNoRemote "2024-01-01 00:00:00" rfl rfl rfl rfl

/-! ## C2: pull conflict auto-resolution -/

/-- C2: when the pull fails for a reason other than already-up-to-date and the
recomputed status is dirty, the conflict-resolution step stages everything and
creates exactly one commit authored by the fixed conflict identity whose
message embeds the resolution timestamp, reporting `Conflict = true` with the
conflicts-auto-resolved notice; the step escalates a fatal error only for a
staging or commit failure, never for the merge conflict itself. -/
theorem sync_pull_conflict_auto_resolve (env : GitEnv) (ts : String) (st : WorktreeStatus)
    (hp : env.pullResult = PullResult.err) (hs : env.statusResult = some st)
    (hc : st.IsClean = false) :
    (env.addOk = true → env.commitOk = true →
      pullStage env ts =
        (Except.ok { Success := true, Message := ErrConflictsDetected, Pulled := false,
                     Pushed := false, Conflict := true },
         { commits := [{ Message := "Auto-resolve conflicts: " ++ ts,
                         AuthorName := ConflictAuthorName, AuthorEmail := ConflictAuthorEmail }],
           netOps := [NetOp.pull] })) ∧
    (env.addOk = false → (pullStage env ts).1 = Except.error ErrTag.failedToAddChanges) ∧
    (env.addOk = true → env.commitOk = false →
      (pullStage env ts).1 = Except.error ErrTag.failedToCommit) ∧
    (∀ e, (pullStage env ts).1 = Except.error e →
      e = ErrTag.failedToAddChanges ∨ e = ErrTag.failedToCommit) := by
  cases hA : env.addOk <;> cases hB : env.commitOk <;>
    simp [pullStage, hp, hs, hc, hA, hB]

/-- C2 witness: the theorem applied to the concrete conflict environment. -/
theorem sync_pull_conflict_auto_resolve_witness :
    pullStage envConflict "2024-05-01 10:00:00" =
      (Except.ok { Success := true, Message := ErrConflictsDetected, Pulled := false,
                   Pushed := false, Conflict := true },
       { commits := [{ Message := "Auto-resolve conflicts: 2024-05-01 10:00:00",
                       AuthorName := ConflictAuthorName, AuthorEmail := ConflictAuthorEmail }],
         netOps := [NetOp.pull] }) :=
  (sync_pull_conflict_auto_resolve envConflict "2024-05-01 10:00:00"
    (WorktreeStatus.mk false) rfl rfl rfl).1 rfl rfl

/-! ## C3: push rejection and forced retry -/

/-- C3 (amended): when the plain push is rejected for a reason other than
already-up-to-date, the push step retries exactly once with a forced push; a
successful forced push yields `Pushed = true` with a force-pushed notice, and
within the push step a forced-push failure is the only condition surfaced as a
fatal error — but it is not the only fatal condition of the whole protocol,
since status/staging/commit failures during conflict resolution are also
fatal. -/
theorem push_rejected_forced_retry (env : GitEnv) (m : SyncMsg)
    (hr : env.pushResult = PushResult.err) :
    ((pushStage env m).2 = [NetOp.push false, NetOp.push true]) ∧
    (env.forcePushOk = false → (pushStage env m).1 = Except.error ErrTag.failedToPush) ∧
    (env.forcePushOk = true →
      (pushStage env m).1 =
        Except.ok { m with
                    Pushed := true
                    Message := if m.Message = ErrAlreadyUpToDate then ErrForcePushSuccess
                               else m.Message ++ ", force pushed successfully" }) ∧
    (∀ env2 : GitEnv, ∀ m2 : SyncMsg, ∀ e : ErrTag, (pushStage env2 m2).1 = Except.error e →
      e = ErrTag.failedToPush ∧ env2.pushResult = PushResult.err ∧ env2.forcePushOk = false) := by
  refine ⟨?_, ?_, ?_, ?_⟩
  · cases hF : env.forcePushOk <;> by_cases hM : m.Message = ErrAlreadyUpToDate <;>
      simp [pushStage, hr, hF, hM]
  · intro hF; simp [pushStage, hr, hF]
  · intro hF
    by_cases hM : m.Message = ErrAlreadyUpToDate <;> simp [pushStage, hr, hF, hM]
  · intro env2 m2 e
    cases h2 : env2.pushResult <;> cases hF2 : env2.forcePushOk <;>
      by_cases hM2 : m2.Message = ErrAlreadyUpToDate <;>
        simp [pushStage, h2, hF2, hM2]
    all_goals exact fun h => h.symm

/-- C3 counterexample: a sync attempt in which staging fails during conflict
resolution is surfaced as a fatal error although no push (let alone a forced
push) was ever attempted — so a forced-push failure is not the only condition
in the protocol surfaced as a fatal error. -/
theorem sync_fatal_without_forced_push :
    (SyncWithRemote envAddFail "2024-01-01 00:00:00").1 = Except.error ErrTag.failedToAddChanges ∧
    (SyncWithRemote envAddFail "2024-01-01 00:00:00").2.netOps = [NetOp.pull] := ⟨rfl, rfl⟩

/-- C3 witness: the amended theorem applied to the concrete conflict
environment and the conflict-stage message. -/
theorem push_rejected_forced_retry_witness :
    (pushStage envConflict
      { Success := true, Message := ErrConflictsDetected, Pulled := false, Pushed := false,
        Conflict := true }).1 =
      Except.ok { Success := true, Message := ErrConflictsDetected ++ ", force pushed successfully",
                  Pulled := false, Pushed := true, Conflict := true } := by
  obtain ⟨-, -, h3, -⟩ := push_rejected_forced_retry envConflict
    { Success := true, Message := ErrConflictsDetected, Pulled := false, Pushed := false,
      Conflict := true } rfl
  exact (h3 rfl).trans (by decide)

/-! ## C4: loading absorbs input -/

/-- C4 (amended): while `Loading = true` every key event — the force-quit key
`ctrl+c` included — leaves the application state unchanged and schedules no
operation, and any synthetic burst of keys therefore leaves the state
unchanged; the source has no force-quit exception in its key handler. -/
theorem loading_absorbs_all_keys (m : Model) (h : m.Loading = true) :
    (∀ k, handleKeyMsg m k = (m, none)) ∧ (∀ ks, runKeys m ks = m) := by
  have hstep : ∀ k, handleKeyMsg m k = (m, none) := by
    intro k
    unfold handleKeyMsg
    rw [h]
    simp
  refine ⟨hstep, ?_⟩
  intro ks
  induction ks with
  | nil => rfl
  | cons k ks ih =>
    simp only [runKeys, List.foldl] at ih ⊢
    rw [hstep k]
    exact ih

/-- C4 counterexample: in a loading state the force-quit key `ctrl+c` leaves
the state unchanged (no quit flag, no scheduled command), so it does not
terminate the loop as the claim states. -/
theorem loading_ctrl_c_does_nothing :
    handleKeyMsg mLoading Key.ctrlC = (mLoading, none) ∧ mLoading.Quitting = false :=
  ⟨rfl, rfl⟩

/-- C4 witness: the amended theorem applied to a concrete loading state and
key. -/
theorem loading_absorbs_all_keys_witness :
    handleKeyMsg mLoading Key.up = (mLoading, none) :=
  (loading_absorbs_all_keys mLoading rfl).1 Key.up

/-! ## C9: backspace in description mode -/

/-- C9: the claim is right and the code is wrong.  The source truncates the
draft with the bytewise slice `DescriptionInput[:len(DescriptionInput)-1]`, so
on the draft `"ф"` (UTF-8 bytes 209, 132) backspace leaves the single stray
byte 209 — invalid UTF-8 — instead of removing the whole code point, which
would leave the empty draft; the history-mode half of the claim (backspace
returns to the main menu) does hold on the code. -/
theorem backspace_drops_one_byte_not_one_char :
    utf8Encode "ф" = [209, 132] ∧
    (handleDescriptionInput mDraft Key.backspace).1.DescriptionInput = [209] ∧
    [209] ≠ utf8Encode "" ∧
    (handleHistoryInput { mBase with HistoryMode := true } Key.backspace).1.HistoryMode = false := by
  refine ⟨by decide, rfl, by decide, rfl⟩

/-! ## C10: digit keys in description mode -/

/-- C10: in description mode a digit key 1-9 either replaces the whole draft
with the suggestion at the corresponding position, or — when the position is
beyond the suggestion list — leaves the state (draft included) unchanged and
schedules nothing; the digit is never appended to the draft. -/
theorem digit_selects_suggestion (m : Model) (d : Char)
    (h1 : '1' ≤ d) (h2 : d ≤ '9') :
    (∀ sug, m.Suggestions.get? (d.toNat - '1'.toNat) = some sug →
      handleDescriptionInput m (Key.runes [d]) =
        ({ m with DescriptionInput := utf8Encode sug }, none)) ∧
    (m.Suggestions.get? (d.toNat - '1'.toNat) = none →
      handleDescriptionInput m (Key.runes [d]) = (m, none)) := by
  constructor
  · intro sug hs
    have hs2 : m.Suggestions[d.toNat - 49]? = some sug := by simpa using hs
    simp [handleDescriptionInput, keyRunes, h1, h2, hs2]
  · intro hn
    have hn2 : m.Suggestions[d.toNat - 49]? = none := by simpa using hn
    have hlt1 : ¬ d < '1' := not_lt.2 h1
    have hlt9 : ¬ '9' < d := not_lt.2 h2
    simp [handleDescriptionInput, keyRunes, h1, h2, hn2, descTypeSwitch, hlt1, hlt9]

/-- C10 witness: digit 2 replaces the draft with the second suggestion. -/
theorem digit_selects_suggestion_witness :
    handleDescriptionInput mSug (Key.runes ['2']) =
      ({ mSug with DescriptionInput := utf8Encode "beta" }, none) :=
  (digit_selects_suggestion mSug '2' (by decide) (by decide)).1 "beta" rfl

/-! ## C6: checkpoint/history round trip -/

/-- C6: creating a checkpoint with message `msg` (both engine calls
succeeding) and immediately loading the history yields a list whose first
entry is the new commit, flagged `IsCurrent = true` and carrying exactly the
message `msg`. -/
theorem checkpoint_history_roundtrip (r : Repo) (env : CkptEnv) (msg : String)
    (ha : env.addOk = true) (hc : env.commitOk = true) :
    ∃ c rest, LoadCheckpoints (CreateCheckpoint r env msg).2 = Except.ok (c :: rest) ∧
      c.IsCurrent = true ∧ c.Message = msg := by
  have h2 : (CreateCheckpoint r env msg).2 =
      { commits := { Hash := env.newHash, Message := msg, Author := CheckpointAuthorName,
                     Date := env.now } :: r.commits,
        dirty := false } := by
    simp [CreateCheckpoint, ha, hc]
  have h3 : LoadCheckpoints (CreateCheckpoint r env msg).2 =
      Except.ok ({ Hash := env.newHash, Message := msg, Author := CheckpointAuthorName,
                   Date := env.now, IsCurrent := env.newHash == env.newHash } ::
        r.commits.map (fun cm =>
          { Hash := cm.Hash, Message := cm.Message, Author := cm.Author, Date := cm.Date,
            IsCurrent := cm.Hash == env.newHash })) := by
    rw [h2]
    rfl
  exact ⟨_, _, h3, by simp, rfl⟩

/-- C6 witness: the round trip at a concrete repository and environment. -/
theorem checkpoint_history_roundtrip_witness :
    ∃ c rest, LoadCheckpoints (CreateCheckpoint rW envCk "hello").2 = Except.ok (c :: rest) ∧
      c.IsCurrent = true ∧ c.Message = "hello" :=
  checkpoint_history_roundtrip rW envCk "hello" rfl rfl

/-! ## C8: rollback to an unknown identifier -/

/-- C8: rolling back to an identifier that names no commit in the history
returns a failure result describing the attempted rewind and leaves the
repository — commit log and working tree alike — unchanged. -/
theorem rollback_unknown_identifier (r : Repo) (hash : String)
    (h : ∀ c ∈ r.commits, c.Hash ≠ hash) :
    RollbackToCheckpoint r hash =
      ({ Success := false, Message := "Не удалось перемотать: object not found" }, r) := by
  have hd : r.commits.dropWhile (fun c => !(c.Hash == hash)) = [] := by
    rw [List.dropWhile_eq_nil_iff]
    intro c hc
    simpa using h c hc
  unfold RollbackToCheckpoint
  rw [hd]

/-- C8 witness: rollback at a concrete repository and an absent hash. -/
theorem rollback_unknown_identifier_witness :
    RollbackToCheckpoint rW "zzz" =
      ({ Success := false, Message := "Не удалось перемотать: object not found" }, rW) :=
  rollback_unknown_identifier rW "zzz" (by decide)

/-! ## C7: main-menu hotkeys -/

/-- C7 (amended): in main mode while not loading, over an INITIALIZED
repository, the hotkeys c/h/r/s jump straight to the checkpoint-creation,
history, rollback and sync actions regardless of the currently selected menu
entry; over an uninitialized repository they do not (see the
counterexample). -/
theorem hotkeys_jump_initialized (m : Model)
    (hl : m.Loading = false) (hd : m.DescriptionMode = false) (hh : m.HistoryMode = false)
    (hg : m.GitNotInitialized = false) :
    (handleKeyMsg m (Key.runes ['c']) =
      ({ clearSyncMessage m with
         Selected := 0
         Loading := true
         LoadingText := "Ловлю вдохновение..." },
       some (Cmd.descriptionModeMsg DefaultSuggestions))) ∧
    (handleKeyMsg m (Key.runes ['h']) =
      ({ clearSyncMessage m with
         Selected := 1
         Loading := true
         LoadingText := "Вспоминаем былое..." },
       some Cmd.loadCheckpoints)) ∧
    (handleKeyMsg m (Key.runes ['r']) =
      ({ clearSyncMessage m with
         Selected := 2
         Loading := true
         LoadingText := "Вспоминаем былое..." },
       some Cmd.loadCheckpoints)) ∧
    (handleKeyMsg m (Key.runes ['s']) =
      ({ clearSyncMessage m with
         Selected := 3
         Loading := true
         LoadingText := "Синхронизирую потоки..." },
       some Cmd.syncWithRemote)) := by
  obtain ⟨st, er, sel, q, cps, hm, hsel, ld, lt, sm, ssm, gni, dm, di, sug⟩ := m
  simp only at hl hd hh hg
  subst hl hd hh hg
  cases ssm <;>
    refine ⟨?_, ?_, ?_, ?_⟩ <;>
      simp +decide [handleKeyMsg, handleKeyMsgBody, mainModeKeys, clearSyncMessage, keyString,
        handleMenuSelection, Model.GetMenuItems, GetMenuItems, MenuInitGit, MenuCreateCheckpoint,
        MenuViewHistory, MenuRollback, MenuSync]

/-- C7 counterexample: over an uninitialized repository the hotkeys do not
jump to their actions — `c` dispatches repository initialization (the menu's
sole entry), and `h`, `r`, `s` merely move the selection out of the shrunk
menu's range and schedule nothing. -/
theorem hotkeys_uninitialized_divert :
    (handleKeyMsg mUninit (Key.runes ['c'])).2 = some Cmd.initGit ∧
    handleKeyMsg mUninit (Key.runes ['h']) = ({ mUninit with Selected := 1 }, none) ∧
    handleKeyMsg mUninit (Key.runes ['r']) = ({ mUninit with Selected := 2 }, none) ∧
    handleKeyMsg mUninit (Key.runes ['s']) = ({ mUninit with Selected := 3 }, none) := by
  decide

/-- C7 witness: the amended theorem applied at the base state, hotkey `s`. -/
theorem hotkeys_jump_initialized_witness :
    handleKeyMsg mBase (Key.runes ['s']) =
      ({ clearSyncMessage mBase with
         Selected := 3
         Loading := true
         LoadingText := "Синхронизирую потоки..." },
       some Cmd.syncWithRemote) :=
  (hotkeys_jump_initialized mBase rfl rfl rfl rfl).2.2.2

/-! ## C5: selection index bounds -/

/-- The selection-index invariant the code actually maintains: the main-menu
index stays within the bounds of the package-level four-entry menu (not of the
possibly shrunk `Model.GetMenuItems` list), and the history index stays within
the checkpoint list (0 when the list is empty). -/
abbrev SelInv (m : Model) : Prop :=
  0 ≤ m.Selected ∧ m.Selected < (GetMenuItems.length : Int) ∧
    0 ≤ m.HistorySelected ∧
    (m.HistorySelected < (m.Checkpoints.length : Int) ∨ m.HistorySelected = 0)

theorem clearSync_Selected (m : Model) : (clearSyncMessage m).Selected = m.Selected := by
  unfold clearSyncMessage
  split <;> rfl

theorem clearSync_HistorySelected (m : Model) :
    (clearSyncMessage m).HistorySelected = m.HistorySelected := by
  unfold clearSyncMessage
  split <;> rfl

theorem clearSync_Checkpoints (m : Model) : (clearSyncMessage m).Checkpoints = m.Checkpoints := by
  unfold clearSyncMessage
  split <;> rfl

theorem menuSelection_Selected (m : Model) : (handleMenuSelection m).1.Selected = m.Selected := by
  unfold handleMenuSelection
  dsimp only
  repeat' split
  all_goals rfl

theorem menuSelection_HistorySelected (m : Model) :
    (handleMenuSelection m).1.HistorySelected = m.HistorySelected := by
  unfold handleMenuSelection
  dsimp only
  repeat' split
  all_goals rfl

theorem menuSelection_Checkpoints (m : Model) :
    (handleMenuSelection m).1.Checkpoints = m.Checkpoints := by
  unfold handleMenuSelection
  dsimp only
  repeat' split
  all_goals rfl

theorem descInput_Selected (m : Model) (k : Key) :
    (handleDescriptionInput m k).1.Selected = m.Selected := by
  unfold handleDescriptionInput descTypeSwitch
  dsimp only
  repeat' split
  all_goals rfl

theorem descInput_HistorySelected (m : Model) (k : Key) :
    (handleDescriptionInput m k).1.HistorySelected = m.HistorySelected := by
  unfold handleDescriptionInput descTypeSwitch
  dsimp only
  repeat' split
  all_goals rfl

theorem descInput_Checkpoints (m : Model) (k : Key) :
    (handleDescriptionInput m k).1.Checkpoints = m.Checkpoints := by
  unfold handleDescriptionInput descTypeSwitch
  dsimp only
  repeat' split
  all_goals rfl

theorem historyInput_Selected (m : Model) (k : Key) :
    (handleHistoryInput m k).1.Selected = m.Selected := by
  unfold handleHistoryInput
  dsimp only
  repeat' split
  all_goals rfl

theorem historyInput_Checkpoints (m : Model) (k : Key) :
    (handleHistoryInput m k).1.Checkpoints = m.Checkpoints := by
  unfold handleHistoryInput
  dsimp only
  repeat' split
  all_goals rfl

theorem historyInput_HistorySelected (m : Model) (k : Key)
    (h3 : 0 ≤ m.HistorySelected)
    (h4 : m.HistorySelected < (m.Checkpoints.length : Int) ∨ m.HistorySelected = 0) :
    0 ≤ (handleHistoryInput m k).1.HistorySelected ∧
      ((handleHistoryInput m k).1.HistorySelected < (m.Checkpoints.length : Int) ∨
       (handleHistoryInput m k).1.HistorySelected = 0) := by
  unfold handleHistoryInput
  dsimp only
  repeat' split
  all_goals simp
  all_goals omega

theorem mainMode_Selected (m : Model) (k : Key)
    (h1 : 0 ≤ m.Selected) (h2 : m.Selected < (GetMenuItems.length : Int)) :
    0 ≤ (mainModeKeys m k).1.Selected ∧
      (mainModeKeys m k).1.Selected < (GetMenuItems.length : Int) := by
  unfold mainModeKeys
  dsimp only
  repeat' split
  all_goals (try simp_all [GetMenuItems, menuSelection_Selected])
  all_goals omega

theorem mainMode_HistorySelected (m : Model) (k : Key) :
    (mainModeKeys m k).1.HistorySelected = m.HistorySelected := by
  unfold mainModeKeys
  dsimp only
  repeat' split
  all_goals simp [menuSelection_HistorySelected]

theorem mainMode_Checkpoints (m : Model) (k : Key) :
    (mainModeKeys m k).1.Checkpoints = m.Checkpoints := by
  unfold mainModeKeys
  dsimp only
  repeat' split
  all_goals simp [menuSelection_Checkpoints]

/-- Every single key event preserves the selection-index invariant. -/
theorem selInv_step (m : Model) (h : SelInv m) (k : Key) : SelInv (handleKeyMsg m k).1 := by
  obtain ⟨h1, h2, h3, h4⟩ := h
  unfold handleKeyMsg
  split
  · exact ⟨h1, h2, h3, h4⟩
  · have c1 := clearSync_Selected m
    have c2 := clearSync_HistorySelected m
    have c3 := clearSync_Checkpoints m
    unfold handleKeyMsgBody
    split
    · refine ⟨?_, ?_, ?_, ?_⟩ <;>
        simp only [descInput_Selected, descInput_HistorySelected, descInput_Checkpoints,
          c1, c2, c3]
      · exact h1
      · exact h2
      · exact h3
      · exact h4
    · split
      · have hh := historyInput_HistorySelected (clearSyncMessage m) k
          (by rw [c2]; exact h3) (by rw [c2, c3]; exact h4)
        rw [c3] at hh
        refine ⟨?_, ?_, ?_, ?_⟩
        · rw [historyInput_Selected, c1]; exact h1
        · rw [historyInput_Selected, c1]; exact h2
        · exact hh.1
        · rw [historyInput_Checkpoints, c3]; exact hh.2
      · have hm := mainMode_Selected (clearSyncMessage m) k (by rw [c1]; exact h1)
          (by rw [c1]; exact h2)
        refine ⟨hm.1, hm.2, ?_, ?_⟩
        · rw [mainMode_HistorySelected, c2]; exact h3
        · rw [mainMode_HistorySelected, mainMode_Checkpoints, c2, c3]; exact h4

/-- C5 (amended): key events keep the main-menu selection within `[0, 4)` —
the bounds of the package-level four-entry menu, NOT of the possibly shrunk
state-dependent menu — and the history selection within
`[0, len(checkpoints))` (0 for an empty list); this holds for arbitrary key
sequences, and moves beyond either end of a list are no-ops on the index.
When the repository is uninitialized the main index is not clamped to the
one-entry menu (see the counterexample); out-of-range selections are instead
rejected when activated. -/
theorem selection_indices_bounded (m : Model) (h : SelInv m) :
    (∀ k, SelInv (handleKeyMsg m k).1) ∧
    (∀ ks, SelInv (runKeys m ks)) ∧
    (m.Loading = false → m.DescriptionMode = false → m.HistoryMode = false →
      m.Selected = 0 → (handleKeyMsg m Key.up).1.Selected = 0) ∧
    (m.Loading = false → m.DescriptionMode = false → m.HistoryMode = false →
      m.Selected = (GetMenuItems.length : Int) - 1 →
      (handleKeyMsg m Key.down).1.Selected = m.Selected) ∧
    (m.Loading = false → m.DescriptionMode = false → m.HistoryMode = true →
      m.HistorySelected = 0 → (handleKeyMsg m Key.up).1.HistorySelected = 0) ∧
    (m.Loading = false → m.DescriptionMode = false → m.HistoryMode = true →
      m.HistorySelected = (m.Checkpoints.length : Int) - 1 →
      (handleKeyMsg m Key.down).1.HistorySelected = m.HistorySelected) := by
  have hseq : ∀ ks m0, SelInv m0 → SelInv (runKeys m0 ks) := by
    intro ks
    induction ks with
    | nil => intro m0 h0; exact h0
    | cons k ks ih =>
      intro m0 h0
      simp only [runKeys, List.foldl]
      exact ih _ (selInv_step m0 h0 k)
  obtain ⟨st, er, sel, q, cps, hm, hsel, ld, lt, sm, ssm, gni, dm, di, sug⟩ := m
  refine ⟨fun k => selInv_step _ h k, fun ks => hseq ks _ h, ?_, ?_, ?_, ?_⟩ <;>
    intro hl hd hh hv <;>
      simp only at hl hd hh hv <;>
        subst hl hd hh <;>
          cases ssm <;>
            simp_all +decide [handleKeyMsg, handleKeyMsgBody, mainModeKeys, handleHistoryInput,
              clearSyncMessage, keyString, GetMenuItems]

/-- C5 counterexample: with the repository uninitialized the visible menu has
the single "initialize" entry, yet one down-key moves the selection to 1 —
outside `[0, 1)` — because the bound is taken from the package-level four-item
list and the index is never clamped when the menu shrinks. -/
theorem selection_exceeds_shrunk_menu :
    (handleKeyMsg mUninit Key.down).1.Selected = 1 ∧
    mUninit.GetMenuItems.length = 1 ∧
    ¬ ((handleKeyMsg mUninit Key.down).1.Selected <
        ((handleKeyMsg mUninit Key.down).1.GetMenuItems.length : Int)) := by
  decide

/-- C5 witness: the amended theorem applied at the base state and a down
key. -/
theorem selection_indices_bounded_witness :
    SelInv (handleKeyMsg mBase Key.down).1 :=
  (selection_indices_bounded mBase (by decide)).1 Key.down
